import Mathlib

/-!
Verification of the workflow-orchestration core of the ai-compliance-orchestrator
repository.  The definitions below are a shallow embedding of the Python source:

* `server/models/schemas.py`      — the pydantic data model,
* `server/core/guardrails.py`     — query screen, result screen, safe refusal,
* `server/core/orchestrator.py`   — result synthesis, HITL round, staged workflow,
* `server/agents/base_agent.py`   — agent runner (timeout / fault absorption),
* `server/main.py`                — the `/ask` entry point.

Numeric fields that are Python floats are embedded as rationals; the claims only
compare them against short decimal literals, where the orderings agree.
-/

/-- `Literal["compliant", "non_compliant", "insufficient_evidence"]`
from `schemas.py` (ComplianceResult.decision). -/
inductive Decision where
  | compliant
  | non_compliant
  | insufficient_evidence
deriving DecidableEq, Repr

/-- `Citation` from `schemas.py`: doc_id, chunk_id, snippet. -/
structure Citation where
  doc_id : String
  chunk_id : String
  snippet : String
deriving DecidableEq, Repr

/-- `HumanInteraction` from `schemas.py` (type, prompt, response, status).
The wall-clock `timestamp` field is produced by an external clock and carries
no information the orchestration logic reads back, so it is omitted. -/
structure HIRec where
  type : String
  prompt : String
  response : String
  status : String
deriving DecidableEq, Repr

/-- `ComplianceResult` from `schemas.py`. -/
structure ComplianceResult where
  decision : Decision
  confidence : ℚ
  risk_score : ℚ
  rationale : String
  citations : List Citation
  open_questions : List String
  human_interactions : List HIRec
deriving DecidableEq, Repr

/-- One document entry inside an agent output dict (policy / evidence /
vision item).  Each key may be absent, mirroring `.get(key, default)` reads in
`orchestrator.py` lines 230-255. -/
structure SrcDoc where
  doc_id : Option String := none
  chunk_id : Option String := none
  snippet : Option String := none
  content : Option String := none
deriving DecidableEq, Repr

/-- The free-form dict returned by one agent invocation, restricted to the
keys that the orchestration core reads (`orchestrator.py` lines 79-84,
103-109, 220-309).  A missing key is `none`; the list-valued keys use `[]`
for "absent", which is truthiness-equivalent to an empty Python list at
every read site (`if data.get(key):`). -/
structure AgentDict where
  agent : Option String := none
  status : Option String := none
  error : Option String := none
  policies : List SrcDoc := []
  evidence : List SrcDoc := []
  vision_evidence : List SrcDoc := []
  compliance_items : Option ℤ := none
  risk_score : Option ℚ := none
  confidence : Option ℚ := none
  gaps_identified : List String := []
  follow_up_questions : List String := []
  needs_hitl : Option Bool := none
deriving DecidableEq, Repr

/-- `context.get(agent_name, {})` default. -/
def emptyAgentDict : AgentDict := {}

/-- The per-run `context` dictionary built in `run_workflow`
(`orchestrator.py` lines 57-61, 83, 92, 99, 120-121).  An agent entry is
`none` before that agent's result has been written.  `hitl_responses` holds,
for each provided HITL answer, the stringified payload of the stored
response dict (the only parts of it that `_generate_final_result` reads are
the payload and the absent `prompt` key). -/
structure Context where
  query : String := ""
  attachments : List String := []
  session_id : String := ""
  policy_retriever : Option AgentDict := none
  evidence_collector : Option AgentDict := none
  vision_ocr : Option AgentDict := none
  code_scanner : Option AgentDict := none
  risk_scorer : Option AgentDict := none
  red_team_critic : Option AgentDict := none
  hitl_responses : List String := []
deriving DecidableEq, Repr

/-- Embedding of CPython `f"{x:.2f}"` on the rationals standing in for the
score floats (`orchestrator.py` lines 270-271): round to hundredths and
print with two decimals.  No claim depends on the printed digits. -/
def formatQ2 (q : ℚ) : String :=
  let m : ℤ := round (q * 100)
  let ip : ℤ := m / 100
  let fp : ℕ := (m % 100).toNat
  toString ip ++ "." ++ (if fp < 10 then "0" ++ toString fp else toString fp)

/-- Citation built from a policy or evidence item
(`orchestrator.py` lines 233-246). -/
def mkSnippetCitation (d : SrcDoc) : Citation :=
  { doc_id := d.doc_id.getD "unknown"
    chunk_id := d.chunk_id.getD "unknown"
    snippet := d.snippet.getD "" }

/-- Citation built from a vision/OCR item (`orchestrator.py` lines 251-255):
the snippet comes from the `content` key. -/
def mkVisionCitation (d : SrcDoc) : Citation :=
  { doc_id := d.doc_id.getD "unknown"
    chunk_id := d.chunk_id.getD "unknown"
    snippet := d.content.getD "" }

/-- `WorkflowOrchestrator._generate_final_result` (`orchestrator.py`
lines 216-311): citations concatenated from policy, evidence and vision
outputs; decision from the risk scorer's score/confidence with 0.5 defaults;
rationale from deterministic fragments; open questions from the critic;
one `provided` human-interaction entry per stored HITL response (whose
`prompt` key is absent from the stored response dict, hence `""`). -/
def generateFinalResult (ctx : Context) : ComplianceResult :=
  let policy_data := ctx.policy_retriever.getD emptyAgentDict
  let evidence_data := ctx.evidence_collector.getD emptyAgentDict
  let vision_data := ctx.vision_ocr.getD emptyAgentDict
  let code_data := ctx.code_scanner.getD emptyAgentDict
  let risk_data := ctx.risk_scorer.getD emptyAgentDict
  let critic_data := ctx.red_team_critic.getD emptyAgentDict
  let citations :=
    (if policy_data.policies ≠ [] then policy_data.policies.map mkSnippetCitation else [])
    ++ (if evidence_data.evidence ≠ [] then evidence_data.evidence.map mkSnippetCitation else [])
    ++ (if vision_data.vision_evidence ≠ [] then vision_data.vision_evidence.map mkVisionCitation else [])
  let risk_score := risk_data.risk_score.getD (1/2)
  let confidence := risk_data.confidence.getD (1/2)
  let decision :=
    if risk_score < 3/10 ∧ confidence > 8/10 then Decision.compliant
    else if risk_score > 7/10 ∨ confidence < 6/10 then Decision.insufficient_evidence
    else Decision.non_compliant
  let rationale_parts :=
    ["Risk assessment score: " ++ formatQ2 risk_score,
     "Analysis confidence: " ++ formatQ2 confidence]
    ++ (if policy_data.policies ≠ [] then
          ["Found " ++ toString policy_data.policies.length ++ " relevant policy references"] else [])
    ++ (if evidence_data.evidence ≠ [] then
          ["Identified " ++ toString evidence_data.evidence.length ++ " pieces of supporting evidence"] else [])
    ++ (if vision_data.vision_evidence ≠ [] then
          ["Processed " ++ toString vision_data.vision_evidence.length ++ " visual/OCR evidence items"] else [])
    ++ (if code_data.compliance_items.getD 0 > 0 then
          ["Code analysis found " ++ toString (code_data.compliance_items.getD 0) ++ " compliance-relevant implementations"] else [])
    ++ (if critic_data.gaps_identified ≠ [] then
          ["Critic identified " ++ toString critic_data.gaps_identified.length ++ " potential gaps"] else [])
  let rationale := String.intercalate ". " rationale_parts ++ "."
  { decision := decision
    confidence := confidence
    risk_score := risk_score
    rationale := rationale
    citations := citations
    open_questions := critic_data.follow_up_questions
    human_interactions := ctx.hitl_responses.map (fun payload =>
      { type := "clarification", prompt := "", response := payload, status := "provided" }) }

/-- The decision rule as worded by the specification (§4.4), for comparison
with the rule inlined in `generateFinalResult`. -/
def decisionRuleSpec (risk_score confidence : ℚ) : Decision :=
  if risk_score < 3/10 ∧ confidence > 8/10 then Decision.compliant
  else if risk_score > 7/10 ∨ confidence < 6/10 then Decision.insufficient_evidence
  else Decision.non_compliant

/-! ## Guardrails result screen (`guardrails.py` lines 62-107) -/

def msgCompliantHighRisk : String :=
  "Inconsistent: decision is \x27compliant\x27 but risk_score is high"

def msgNonCompliantLowRisk : String :=
  "Inconsistent: decision is \x27non_compliant\x27 but risk_score is low"

def msgLowConfidence : String :=
  "Low confidence should result in \x27insufficient_evidence\x27 decision"

def msgNoCitations : String :=
  "Compliant/non-compliant decisions must include citations"

def msgShortRationale : String :=
  "Rationale is too brief (minimum 50 characters)"

/-- Return value of `GuardrailsManager.validate_result_schema`. -/
structure ValidationReport where
  is_valid : Bool
  errors : List String
  validated_result : Option ComplianceResult
deriving DecidableEq, Repr

/-- `GuardrailsManager.validate_result_schema` (`guardrails.py` lines 62-94)
on an already well-formed `ComplianceResult` (the pydantic-parse success
branch; the claims only concern well-formed inputs).  The five business
checks append their errors in sequence, without short-circuiting, and
`validated_result` echoes the unchanged input. -/
def validateResultSchema (r : ComplianceResult) : ValidationReport :=
  let e1 := if r.decision = Decision.compliant ∧ r.risk_score > 7/10 then [msgCompliantHighRisk] else []
  let e2 := if r.decision = Decision.non_compliant ∧ r.risk_score < 3/10 then [msgNonCompliantLowRisk] else []
  let e3 := if r.confidence < 1/2 ∧ r.decision ≠ Decision.insufficient_evidence then [msgLowConfidence] else []
  let e4 := if r.decision ≠ Decision.insufficient_evidence ∧ r.citations = [] then [msgNoCitations] else []
  let e5 := if r.rationale.length < 50 then [msgShortRationale] else []
  let errors := e1 ++ e2 ++ e3 ++ e4 ++ e5
  { is_valid := errors.length = 0
    errors := errors
    validated_result := some r }

/-- `GuardrailsManager.create_safe_refusal` (`guardrails.py` lines 109-119). -/
def createSafeRefusal (reason : String) : ComplianceResult :=
  { decision := Decision.insufficient_evidence
    confidence := 0
    risk_score := 0
    rationale := "Request cannot be processed: " ++ reason ++
      ". This system is designed for defensive compliance and risk assessment only."
    citations := []
    open_questions := []
    human_interactions := [] }

/-! ## Agent Runner (`base_agent.py` lines 22-48) -/

/-- The possible behaviours of one awaited `self.execute(query, context)`
call as observed by `run_with_timeout`: it completes within the agent's
timeout with a result dict, it exceeds the timeout (the awaited
`asyncio.wait_for` raises `TimeoutError`), or it raises some other
exception with a message. -/
inductive ExecOutcome where
  | completes (r : AgentDict)
  | timesOut
  | raises (msg : String)
deriving DecidableEq, Repr

/-- The runner's observable outcome: the agent's `status` field after the
call, the returned result dict, and the `execution_time` metric set in the
`finally` block. -/
structure RunnerOutcome where
  status : String
  result : AgentDict
  execution_time : ℚ
deriving DecidableEq, Repr

/-- `BaseAgent.run_with_timeout` (`base_agent.py` lines 22-48): a total
function of the execute-call behaviour — the `except` arms convert both
fault classes into structured result dicts instead of re-raising, and the
`finally` arm records the elapsed time in every case. -/
def runWithTimeout (name : String) (timeout : ℕ) (elapsed : ℚ) :
    ExecOutcome → RunnerOutcome
  | ExecOutcome.completes r =>
      { status := "completed", result := r, execution_time := elapsed }
  | ExecOutcome.timesOut =>
      { status := "timeout"
        result := { agent := some name, status := some "timeout"
                    error := some ("Agent timed out after " ++ toString timeout ++ "s") }
        execution_time := elapsed }
  | ExecOutcome.raises m =>
      { status := "failed"
        result := { agent := some name, status := some "failed", error := some m }
        execution_time := elapsed }

/-! ## Retry declaration vs. method resolution (`base_agent.py` lines 14-20) -/

/-- The arguments of the `tenacity` decorator written on `BaseAgent.execute`:
`retry(stop=stop_after_attempt(3), wait=wait_exponential(multiplier=1, min=2, max=10))`. -/
structure RetryPolicy where
  stop_attempts : ℕ
  wait_multiplier : ℚ
  wait_min : ℚ
  wait_max : ℚ
deriving DecidableEq, Repr

def baseAgentExecuteRetry : RetryPolicy :=
  { stop_attempts := 3, wait_multiplier := 1, wait_min := 2, wait_max := 10 }

/-- A resolved `execute` attribute: either a plain coroutine function or one
wrapped by the retry decorator. -/
inductive ExecuteDef where
  | plain
  | retryWrapped (p : RetryPolicy)
deriving DecidableEq, Repr

/-- The six concrete agent classes registered by the orchestrator
(`orchestrator.py` lines 35-42). -/
inductive AgentClass where
  | policyRetriever
  | evidenceCollector
  | visionOcr
  | codeScanner
  | riskScorer
  | redTeamCritic
deriving DecidableEq, Repr

/-- Python attribute lookup for `self.execute` on a concrete agent: every
concrete class defines its own undecorated `execute` coroutine
(`policy_retriever.py` line 10, `evidence_collector.py`, `vision_ocr_agent.py`,
`code_scanner.py`, `risk_scorer.py` line 9, `red_team_critic.py` line 9),
which shadows the `@retry`-decorated abstract `execute` declared on
`BaseAgent` (`base_agent.py` lines 14-20).  The decorated base definition is
therefore never in the dispatched call path. -/
def resolvedExecute : AgentClass → ExecuteDef := fun _ => ExecuteDef.plain

/-- Number of invocation attempts made on a persistently faulting agent
body, as determined by the resolved `execute` definition. -/
def attemptCap : ExecuteDef → ℕ
  | ExecuteDef.plain => 1
  | ExecuteDef.retryWrapped p => p.stop_attempts

/-! ## HITL round (`orchestrator.py` lines 158-214)

One round for one fresh request identifier.  The state mirrors the pieces of
process state touched by `_request_human_input` and `handle_hitl_response`
for that identifier: whether the identifier is registered in
`pending_hitl_requests`, the `hitl_responses` entry (payload stringified),
whether the event is set, the interactions saved so far, and (once the
waiting stage resumed) the value returned to it. -/

structure HState where
  pending : Bool
  stored : Option String
  eventSet : Bool
  interactions : List HIRec
  returned : Option (Option String)
deriving DecidableEq, Repr

/-- State right after `_request_human_input` registered the wait handle
(`orchestrator.py` line 170) and sent the request. -/
def initHState : HState :=
  { pending := true, stored := none, eventSet := false
    interactions := [], returned := none }

/-- Events that can hit the round: a `handle_hitl_response` call for this
request identifier, the waiting coroutine resuming after the event was set,
or the 60-unit `asyncio.wait_for` budget expiring with the event unset. -/
inductive HEvent where
  | response (payload : String)
  | wake
  | expire
deriving DecidableEq, Repr

/-- One event step.  `response`: `handle_hitl_response` (lines 208-214)
stores the payload — overwriting any previous one — and sets the event, but
only while the identifier is still registered; otherwise it is a no-op.
`wake`: the waiter resumes (lines 177-190), records a `provided`
interaction from whatever is stored, returns it, and the `finally` block
(lines 203-206) deregisters the handle and discards the stored entry.
`expire`: the timeout arm (lines 192-202) records a `timeout` interaction
with empty response text and returns `None`, with the same cleanup. -/
def hitlStep (rtype prompt : String) (s : HState) : HEvent → HState
  | HEvent.response p =>
      if s.pending = true then { s with stored := some p, eventSet := true } else s
  | HEvent.wake =>
      if s.pending = true ∧ s.eventSet = true then
        { pending := false, stored := none, eventSet := s.eventSet
          interactions := s.interactions ++
            [{ type := rtype, prompt := prompt
               response := s.stored.getD "timeout", status := if s.stored.isSome then "provided" else "timeout" }]
          returned := some s.stored }
      else s
  | HEvent.expire =>
      if s.pending = true ∧ s.eventSet = false then
        { pending := false, stored := none, eventSet := s.eventSet
          interactions := s.interactions ++
            [{ type := rtype, prompt := prompt, response := "", status := "timeout" }]
          returned := some none }
      else s

/-- Run one round over a sequence of events. -/
def runRound (rtype prompt : String) (s : HState) (es : List HEvent) : HState :=
  es.foldl (hitlStep rtype prompt) s

/-! ## Staged workflow (`orchestrator.py` lines 48-136) -/

/-- One element of the list returned by
`asyncio.gather(*collection_tasks, return_exceptions=True)`
(`orchestrator.py` line 74): either the agent's result dict (the runner
never raises, so a non-exception element is always a dict) or a captured
exception with its message. -/
inductive GatherOutcome where
  | ok (d : AgentDict)
  | exc (msg : String)
deriving DecidableEq, Repr

/-- The per-outcome conversion in the collection loop (`orchestrator.py`
lines 77-84): an exception element is replaced by a structured failure dict
before being written into the context and persisted. -/
def resolveGather (name : String) : GatherOutcome → AgentDict
  | GatherOutcome.ok d => d
  | GatherOutcome.exc m => { agent := some name, status := some "failed", error := some m }

/-- External inputs of one `run_workflow` execution, after stage 1: the
query/session data, the four gathered collection outcomes, the risk-scorer
and critic result dicts (delivered by `run_with_timeout`, which never
raises), and the operator's behaviour for successive HITL rounds —
`some payload` for an answer arriving within the 60-unit budget, `none` for
a round that times out. -/
structure WfInputs where
  query : String := ""
  attachments : List String := []
  session_id : String := ""
  policyOutcome : GatherOutcome := GatherOutcome.ok {}
  evidenceOutcome : GatherOutcome := GatherOutcome.ok {}
  visionOutcome : GatherOutcome := GatherOutcome.ok {}
  codeOutcome : GatherOutcome := GatherOutcome.ok {}
  risk : AgentDict := {}
  critic : AgentDict := {}
  operatorBehavior : List (Option String) := []
deriving DecidableEq, Repr

/-- The HITL loop of stage 5 (`orchestrator.py` lines 111-121): one round
per question; a provided answer is recorded and its payload appended to
`context["hitl_responses"]`; a timed-out round is recorded with empty
response text and contributes no payload. -/
def doRounds : List String → List (Option String) → List HIRec × List String
  | [], _ => ([], [])
  | q :: qs, ops =>
      let rest := doRounds qs ops.tail
      match ops.headD none with
      | some payload =>
          ({ type := "clarification", prompt := q, response := payload, status := "provided" } :: rest.1,
           payload :: rest.2)
      | none =>
          ({ type := "clarification", prompt := q, response := "", status := "timeout" } :: rest.1,
           rest.2)

/-- Questions actually iterated in stage 5 (`orchestrator.py` lines 103-111):
none unless the critic set `needs_hitl`, and at most the first two. -/
def wfQuestions (inp : WfInputs) : List String :=
  if inp.critic.needs_hitl.getD false then inp.critic.follow_up_questions.take 2 else []

/-- The final per-run context after all stages wrote their entries.
`hitl_responses` is `[]` when no round provided an answer, which is
read-equivalent to the key never having been set. -/
def wfContext (inp : WfInputs) : Context :=
  { query := inp.query
    attachments := inp.attachments
    session_id := inp.session_id
    policy_retriever := some (resolveGather "policy_retriever" inp.policyOutcome)
    evidence_collector := some (resolveGather "evidence_collector" inp.evidenceOutcome)
    vision_ocr := some (resolveGather "vision_ocr" inp.visionOutcome)
    code_scanner := some (resolveGather "code_scanner" inp.codeOutcome)
    risk_scorer := some inp.risk
    red_team_critic := some inp.critic
    hitl_responses := (doRounds (wfQuestions inp) inp.operatorBehavior).2 }

/-- Observable trace of one non-fatally completed `run_workflow` execution:
the progress events sent, the final context, the agent outputs persisted via
`save_agent_output` in order, the human-interaction records saved by the
HITL rounds, and the persisted final result. -/
structure WfTrace where
  stages : List (String × String)
  context : Context
  savedOutputs : List (String × AgentDict)
  roundRecords : List HIRec
  savedFinal : Option ComplianceResult
deriving DecidableEq, Repr

/-- `WorkflowOrchestrator.run_workflow` (`orchestrator.py` lines 48-132) on
the non-exceptional path: stages run in fixed order; all four collection
results are written into the context and persisted regardless of individual
outcome; the risk and critic dicts follow; the conditional HITL rounds
append their records; stage 6 synthesizes, persists and reports the final
result. -/
def runWorkflowModel (inp : WfInputs) : WfTrace :=
  { stages :=
      [("planner_started", "started"), ("parallel_collection", "started"),
       ("rag_done", "completed"), ("risk_scoring", "started"), ("critic_flags", "started")]
      ++ (if inp.critic.needs_hitl.getD false then [("awaiting_human", "started")] else [])
      ++ [("finalized", "started"), ("finalized", "completed")]
    context := wfContext inp
    savedOutputs :=
      [("policy_retriever", resolveGather "policy_retriever" inp.policyOutcome),
       ("evidence_collector", resolveGather "evidence_collector" inp.evidenceOutcome),
       ("vision_ocr", resolveGather "vision_ocr" inp.visionOutcome),
       ("code_scanner", resolveGather "code_scanner" inp.codeOutcome),
       ("risk_scorer", inp.risk),
       ("red_team_critic", inp.critic)]
    roundRecords := (doRounds (wfQuestions inp) inp.operatorBehavior).1
    savedFinal := some (generateFinalResult (wfContext inp)) }

/-! ## Pre-run query screen (`guardrails.py` lines 26-60)

The five `unsafe_patterns` are word-boundary regexes over the lowercased
query; they are embedded as explicit scanners over the character list.
`\w` is `[A-Za-z0-9_]` on the inputs at issue, `\s` is Python whitespace,
and `.` matches any character except a newline. -/

def isWordChar (c : Char) : Bool := c.isAlphanum || c = '_'

def isPySpace (c : Char) : Bool :=
  c = ' ' || c = '\t' || c = '\n' || c = '\r' || c = '\x0b' || c = '\x0c'

/-- `\b` holds before the match position given the preceding character
(`none` at the start of the string); all pattern words start and end with
word characters. -/
def noWordBefore : Option Char → Bool
  | none => true
  | some c => !isWordChar c

/-- `\b` holds at this position looking forward. -/
def noWordAt : List Char → Bool
  | [] => true
  | c :: _ => !isWordChar c

def isPrefixL : List Char → List Char → Bool
  | [], _ => true
  | _ :: _, [] => false
  | a :: as, b :: bs => a = b && isPrefixL as bs

/-- `\b w \b` matches at the head of `s`, with `prev` the character before it. -/
def matchWordAt (w : List Char) (prev : Option Char) (s : List Char) : Bool :=
  noWordBefore prev && isPrefixL w s && noWordAt (s.drop w.length)

/-- All matches (in position order) of `\b(w1|w2|...)\b` — the shape of
pattern 1; `re.findall` returns the captured word for each match. -/
def scanWordsAll (ws : List (List Char)) : Option Char → List Char → List (List Char)
  | _, [] => []
  | prev, c :: rest =>
      (ws.filter fun w => matchWordAt w prev (c :: rest)) ++ scanWordsAll ws (some c) rest

/-- After the first group matched, search for `.*\b(second group)\b`:
skip non-newline gap characters until a second-group word matches with
boundaries. -/
def scanGap (ws2 : List (List Char)) : Option Char → List Char → Bool
  | _, [] => false
  | prev, c :: rest =>
      ws2.any (fun w => matchWordAt w prev (c :: rest)) || (c != '\n' && scanGap ws2 (some c) rest)

/-- Pattern 2, `\b(bypass|circumvent|disable|override)\b.*\b(security|authentication|authorization)\b`:
does it match anywhere? -/
def scanPair (ws1 ws2 : List (List Char)) : Option Char → List Char → Bool
  | _, [] => false
  | prev, c :: rest =>
      ws1.any (fun w =>
        matchWordAt w prev (c :: rest) && scanGap ws2 (some (w.getLastD c)) ((c :: rest).drop w.length))
      || scanPair ws1 ws2 (some c) rest

/-- A match of pattern 3, `\bsql\s+injection\b`, at the head of `s`
(returning the matched text). -/
def sqlInjAt (prev : Option Char) (s : List Char) : Option (List Char) :=
  if noWordBefore prev && isPrefixL ("sql".toList) s then
    let s3 := s.drop 3
    let ws := s3.takeWhile isPySpace
    if !ws.isEmpty && isPrefixL ("injection".toList) (s3.drop ws.length)
        && noWordAt (s3.drop (ws.length + 9)) then
      some ("sql".toList ++ ws ++ "injection".toList)
    else none
  else none

def scanSqlInj : Option Char → List Char → List (List Char)
  | _, [] => []
  | prev, c :: rest =>
      (match sqlInjAt prev (c :: rest) with | some t => [t] | none => []) ++ scanSqlInj (some c) rest

/-- A match of `\b a . b . c \b` (the dotted alternatives of patterns 4
and 5) at the head of `s`. -/
def dottedAt (a b c3 : List Char) (prev : Option Char) (s : List Char) : Option (List Char) :=
  if noWordBefore prev && isPrefixL a s then
    match s.drop a.length with
    | [] => none
    | d :: s2 =>
      if d != '\n' && isPrefixL b s2 then
        match s2.drop b.length with
        | [] => none
        | d2 :: s3 =>
          if d2 != '\n' && isPrefixL c3 s3 && noWordAt (s3.drop c3.length) then
            some (a ++ [d] ++ b ++ [d2] ++ c3)
          else none
      else none
  else none

/-- Patterns 4 and 5 have the shape `\bw\b|\b a . b . c \b`; collect the
matched texts in position order, trying the left alternative first. -/
def scanWordOrDotted (w a b c3 : List Char) : Option Char → List Char → List (List Char)
  | _, [] => []
  | prev, ch :: rest =>
      (if matchWordAt w prev (ch :: rest) then [w]
       else match dottedAt a b c3 prev (ch :: rest) with | some t => [t] | none => [])
      ++ scanWordOrDotted w a b c3 (some ch) rest

def unsafeWords1 : List (List Char) :=
  ["hack", "exploit", "vulnerability", "attack", "malware", "virus"].map String.toList

def pairWords1 : List (List Char) :=
  ["bypass", "circumvent", "disable", "override"].map String.toList

def pairWords2 : List (List Char) :=
  ["security", "authentication", "authorization"].map String.toList

def complianceKeywords : List String :=
  ["policy", "compliance", "regulation", "audit", "security",
   "privacy", "gdpr", "hipaa", "sox", "pci", "iso27001",
   "authentication", "authorization", "access control",
   "data protection", "encryption"]

/-- `len(query.split())`: number of maximal non-whitespace runs. -/
def countWordsAux : Bool → List Char → ℕ
  | _, [] => 0
  | inW, c :: rest =>
      if isPySpace c then countWordsAux false rest
      else (if inW then 0 else 1) + countWordsAux true rest

def countWords (s : List Char) : ℕ := countWordsAux false s

/-- Python `needle in haystack` on strings. -/
def containsSub (n : List Char) : List Char → Bool
  | [] => n.isEmpty
  | c :: rest => isPrefixL n (c :: rest) || containsSub n rest

/-- Return value of `validate_query_safety` when it returns at all. -/
structure ValidationDict where
  is_safe : Bool
  is_compliance_related : Bool
  unsafe_matches : List String
  compliance_score : ℕ
  reason : String
deriving DecidableEq, Repr

/-- `GuardrailsManager._get_validation_reason` (`guardrails.py` lines 53-60),
on a match list that contains only strings. -/
def getValidationReason (is_safe is_compliance : Bool) (ms : List String) : String :=
  if is_safe = false then
    "Query contains potentially unsafe content: " ++ String.intercalate ", " ms
  else if is_compliance = false then
    "Query does not appear to be compliance or risk-related"
  else "Query is acceptable for compliance analysis"

/-- `GuardrailsManager.validate_query_safety` (`guardrails.py` lines 26-51).
Pattern 2 has two capture groups, so for it `re.findall` returns a list of
pairs; if it matched, `unsafe_matches` contains a tuple, `is_safe` is false,
and the f-string in `_get_validation_reason` evaluates
`", ".join(unsafe_matches)` over a list holding a tuple, which raises
`TypeError` — modelled as `none` (the function does not return). -/
def validateQuerySafety (query : String) : Option ValidationDict :=
  let ql := query.toList.map Char.toLower
  let m1 := (scanWordsAll unsafeWords1 none ql).map List.asString
  let p2 := scanPair pairWords1 pairWords2 none ql
  let m3 := (scanSqlInj none ql).map List.asString
  let m4 := (scanWordOrDotted "xss".toList "cross".toList "site".toList "scripting".toList none ql).map List.asString
  let m5 := (scanWordOrDotted "ddos".toList "denial".toList "of".toList "service".toList none ql).map List.asString
  let strMatches := m1 ++ m3 ++ m4 ++ m5
  let is_safe := strMatches.isEmpty && !p2
  let score := complianceKeywords.countP (fun k => containsSub k.toList ql)
  let is_cr := decide (1 ≤ score) || decide (countWords query.toList < 5)
  if p2 then none
  else some
    { is_safe := is_safe
      is_compliance_related := is_cr
      unsafe_matches := strMatches
      compliance_score := score
      reason := getValidationReason is_safe is_cr strMatches }

/-- Outcome of a POST to `/ask` (`main.py` lines 90-133): the JSON `status`
field, the refusal result if any, the reason echoed to the caller, and two
effect flags — whether `run_workflow` was launched and whether
`log_security_event` was called. -/
structure AskResponse where
  status : String
  result : Option ComplianceResult
  reported_reason : Option String
  workflowStarted : Bool
  securityEventLogged : Bool
deriving DecidableEq, Repr

/-- `GuardrailsManager.check_rate_limit` (`guardrails.py` lines 139-143):
stub that always allows. -/
def checkRateLimit : Bool := true

/-- `ask_question` (`main.py` lines 90-133).  `none` means the endpoint
raised instead of returning (the `TypeError` out of
`validate_query_safety` propagates — nothing catches it). -/
def askQuestion (query : String) : Option AskResponse :=
  match validateQuerySafety query with
  | none => none
  | some v =>
    if v.is_safe = false || v.is_compliance_related = false then
      some { status := "refused"
             result := some (createSafeRefusal v.reason)
             reported_reason := some v.reason
             workflowStarted := false
             securityEventLogged := true }
    else if checkRateLimit = false then
      some { status := "rate_limited", result := none, reported_reason := none
             workflowStarted := false, securityEventLogged := false }
    else
      some { status := "started", result := none, reported_reason := none
             workflowStarted := true, securityEventLogged := false }

/-! # Theorems -/

/-- Claim C1: the result-synthesis decision is computed from the risk
scorer's `risk_score` and `confidence` (each defaulting to 0.5 when absent
from the risk scorer's output) by the ordered rule: `compliant` if
risk_score < 0.3 and confidence > 0.8, else `insufficient_evidence` if
risk_score > 0.7 or confidence < 0.6, else `non_compliant`; and on the
boundary inputs 0.29/0.81, 0.71/0.9 and 0.5/0.7 the rule yields
`compliant`, `insufficient_evidence` and `non_compliant` respectively. -/
theorem decision_rule_matches_spec : ∀ ctx : Context,
    (generateFinalResult ctx).decision =
      decisionRuleSpec (((ctx.risk_scorer.getD emptyAgentDict).risk_score).getD (1/2))
        (((ctx.risk_scorer.getD emptyAgentDict).confidence).getD (1/2))
    ∧ decisionRuleSpec (29/100) (81/100) = Decision.compliant
    ∧ decisionRuleSpec (71/100) (9/10) = Decision.insufficient_evidence
    ∧ decisionRuleSpec (1/2) (7/10) = Decision.non_compliant := by
  intro ctx
  refine ⟨rfl, ?_, ?_, ?_⟩ <;> (simp only [decisionRuleSpec]; norm_num)

/-- Claim C2: `run_with_timeout` never propagates a fault: an in-time
completion returns the agent's result, a timeout returns a structured
`timeout` result with an explanatory message, any other exception returns a
structured `failed` result carrying the fault's message, and in every case
the runner's `execution_time` is set to the elapsed time.  The statement
covers all three constructors of `ExecOutcome`, i.e. every behaviour of the
awaited call, so the embedded runner is total. -/
theorem run_with_timeout_contract :
    ∀ (name : String) (t : ℕ) (el : ℚ) (r : AgentDict) (m : String),
    runWithTimeout name t el (ExecOutcome.completes r) =
      { status := "completed", result := r, execution_time := el }
    ∧ runWithTimeout name t el ExecOutcome.timesOut =
      { status := "timeout"
        result := { agent := some name, status := some "timeout"
                    error := some ("Agent timed out after " ++ toString t ++ "s") }
        execution_time := el }
    ∧ runWithTimeout name t el (ExecOutcome.raises m) =
      { status := "failed"
        result := { agent := some name, status := some "failed", error := some m }
        execution_time := el } :=
  fun _ _ _ _ _ => ⟨rfl, rfl, rfl⟩

/-- Claim C4 (code bug): the retry policy (3 attempts, exponential backoff
with minimum 2 and cap 10) is declared on `BaseAgent.execute`, but Python
method resolution dispatches `self.execute` to each concrete agent's own
undecorated override, so a faulting invocation is attempted exactly once —
not the 3 times the declared policy would give. -/
theorem retry_declared_but_never_applied :
    baseAgentExecuteRetry =
      { stop_attempts := 3, wait_multiplier := 1, wait_min := 2, wait_max := 10 }
    ∧ resolvedExecute AgentClass.policyRetriever = ExecuteDef.plain
    ∧ attemptCap (resolvedExecute AgentClass.policyRetriever) = 1
    ∧ attemptCap (ExecuteDef.retryWrapped baseAgentExecuteRetry) = 3
    ∧ (1 : ℕ) ≠ 3 :=
  ⟨rfl, rfl, rfl, rfl, by decide⟩

/-- Claim C6: on a well-formed `ComplianceResult` the result screen returns
exactly the violations of the five business checks — each check's message is
in the error list if and only if the check is violated, every violated check
contributes exactly one entry (no short-circuiting), `is_valid` holds iff
the error list is empty, and the validated result echoes the input
unchanged. -/
theorem validate_result_schema_checks : ∀ r : ComplianceResult,
    ((validateResultSchema r).is_valid = true ↔ (validateResultSchema r).errors = [])
    ∧ (msgCompliantHighRisk ∈ (validateResultSchema r).errors ↔
        (r.decision = Decision.compliant ∧ r.risk_score > 7/10))
    ∧ (msgNonCompliantLowRisk ∈ (validateResultSchema r).errors ↔
        (r.decision = Decision.non_compliant ∧ r.risk_score < 3/10))
    ∧ (msgLowConfidence ∈ (validateResultSchema r).errors ↔
        (r.confidence < 1/2 ∧ r.decision ≠ Decision.insufficient_evidence))
    ∧ (msgNoCitations ∈ (validateResultSchema r).errors ↔
        (r.decision ≠ Decision.insufficient_evidence ∧ r.citations = []))
    ∧ (msgShortRationale ∈ (validateResultSchema r).errors ↔ r.rationale.length < 50)
    ∧ (validateResultSchema r).errors.length =
        ((if r.decision = Decision.compliant ∧ r.risk_score > 7/10 then 1 else 0)
          + (if r.decision = Decision.non_compliant ∧ r.risk_score < 3/10 then 1 else 0)
          + (if r.confidence < 1/2 ∧ r.decision ≠ Decision.insufficient_evidence then 1 else 0)
          + (if r.decision ≠ Decision.insufficient_evidence ∧ r.citations = [] then 1 else 0)
          + (if r.rationale.length < 50 then 1 else 0))
    ∧ (validateResultSchema r).validated_result = some r := by
  intro r
  cases hd : r.decision <;>
  by_cases b1 : r.risk_score > 7/10 <;>
  by_cases b2 : r.risk_score < 3/10 <;>
  by_cases b3 : r.confidence < 1/2 <;>
  by_cases b4 : r.citations = [] <;>
  by_cases b5 : r.rationale.length < 50 <;>
  simp [validateResultSchema, hd, b1, b2, b3, b4, b5,
    msgCompliantHighRisk, msgNonCompliantLowRisk, msgLowConfidence, msgNoCitations,
    msgShortRationale] <;>
  (try (split <;> simp))

/-- Claim C10: the canonical refusal passes the result screen for every
reason string: no business check fires (`insufficient_evidence` exempts the
citation and low-confidence checks, risk 0 triggers neither consistency
check, and the rationale template alone is at least 50 characters), so the
report is valid with an empty error list. -/
theorem safe_refusal_passes_validator : ∀ reason : String,
    validateResultSchema (createSafeRefusal reason) =
      { is_valid := true, errors := [], validated_result := some (createSafeRefusal reason) } := by
  intro reason
  have h29 : ("Request cannot be processed: " : String).length = 29 := by decide
  have h77 : (". This system is designed for defensive compliance and risk assessment only." :
      String).length ≥ 21 := by decide
  simp [validateResultSchema, createSafeRefusal]
  omega

/-- Claim C3 counterexample: a final context in which every collection agent
produced no citable items while the risk scorer reported risk 0.5 at
confidence 0.75 (exactly what the shipped `RiskScorerAgent` reports when all
its inputs are empty) synthesizes decision `non_compliant` with an empty
citations list, violating the claimed invariant. -/
theorem citations_invariant_counterexample :
    (generateFinalResult
      { risk_scorer := some { risk_score := some (1/2), confidence := some (3/4) } }).decision
      = Decision.non_compliant
    ∧ (generateFinalResult
      { risk_scorer := some { risk_score := some (1/2), confidence := some (3/4) } }).citations
      = [] := by
  constructor
  · simp [generateFinalResult, emptyAgentDict]
    norm_num
  · simp [generateFinalResult, emptyAgentDict]

/-- Claim C3 (amended): the synthesized citations list is non-empty
whenever at least one policy, evidence, or vision item is present in the
final context — in particular whenever the decision is `compliant` or
`non_compliant` and some collection output carried an item; with all three
item lists empty the invariant can fail, as the counterexample shows. -/
theorem citations_nonempty_of_source_items : ∀ ctx : Context,
    ((ctx.policy_retriever.getD emptyAgentDict).policies ≠ [] ∨
     (ctx.evidence_collector.getD emptyAgentDict).evidence ≠ [] ∨
     (ctx.vision_ocr.getD emptyAgentDict).vision_evidence ≠ []) →
    (generateFinalResult ctx).citations ≠ [] := by
  intro ctx h hc
  simp only [generateFinalResult, List.append_eq_nil] at hc
  obtain ⟨⟨h1, h2⟩, h3⟩ := hc
  rcases h with h | h | h
  · rw [if_pos h] at h1
    exact h (List.map_eq_nil_iff.mp h1)
  · rw [if_pos h] at h2
    exact h (List.map_eq_nil_iff.mp h2)
  · rw [if_pos h] at h3
    exact h (List.map_eq_nil_iff.mp h3)

/-- Witness for the amended claim C3 at a concrete context holding one
policy item. -/
theorem citations_nonempty_witness :
    ((({ policy_retriever := some { policies := [{}] } } : Context).policy_retriever.getD
        emptyAgentDict).policies ≠ [] ∨
     (({ policy_retriever := some { policies := [{}] } } : Context).evidence_collector.getD
        emptyAgentDict).evidence ≠ [] ∨
     (({ policy_retriever := some { policies := [{}] } } : Context).vision_ocr.getD
        emptyAgentDict).vision_evidence ≠ [])
    ∧ (generateFinalResult { policy_retriever := some { policies := [{}] } }).citations ≠ [] :=
  ⟨Or.inl (by simp), citations_nonempty_of_source_items
    { policy_retriever := some { policies := [{}] } } (Or.inl (by simp))⟩

theorem cons_getLastD {α : Type} (a b : α) (l : List α) :
    (b :: l).getLastD a = l.getLastD b := by
  cases l <;> simp [List.getLastD]

/-- While the wait handle is registered, each handled response overwrites
the stored payload and sets the event; after a non-empty burst of responses
the stored payload is the last one handled. -/
theorem runRound_responses_pending (rt pr : String) :
    ∀ (ps : List String) (p : String) (s : HState), s.pending = true →
      runRound rt pr s ((p :: ps).map HEvent.response) =
        { s with stored := some (ps.getLastD p), eventSet := true } := by
  intro ps
  induction ps with
  | nil =>
      intro p s hs
      simp [runRound, hitlStep, hs]
  | cons q qs ih =>
      intro p s hs
      have step : hitlStep rt pr s (HEvent.response p) =
          { s with stored := some p, eventSet := true } := by
        simp [hitlStep, hs]
      simp only [List.map_cons, runRound, List.foldl_cons] at *
      rw [step, ih q { s with stored := some p, eventSet := true } hs, cons_getLastD]

/-- Once the wait handle has been deregistered, further responses for the
identifier are no-ops. -/
theorem runRound_responses_noop (rt pr : String) :
    ∀ (ts : List String) (s : HState), s.pending = false →
      runRound rt pr s (ts.map HEvent.response) = s := by
  intro ts
  induction ts with
  | nil => intro s _; rfl
  | cons t ts ih =>
      intro s hs
      have step : hitlStep rt pr s (HEvent.response t) = s := by
        simp [hitlStep, hs]
      simp only [List.map_cons, runRound, List.foldl_cons] at *
      rw [step, ih s hs]

/-- Claim C5 counterexample: when a duplicate `HITLResponse` is handled
before the waiting stage resumes, `handle_hitl_response` overwrites the
stored entry, so the round's interaction record and returned payload come
from the second response, not the first accepted one. -/
theorem hitl_duplicate_overwrites_counterexample :
    (runRound "clarification" "Q" initHState
      [HEvent.response "p1", HEvent.response "p2", HEvent.wake]).returned = some (some "p2")
    ∧ (runRound "clarification" "Q" initHState
      [HEvent.response "p1", HEvent.response "p2", HEvent.wake]).interactions =
        [{ type := "clarification", prompt := "Q", response := "p2", status := "provided" }]
    ∧ (some (some "p2") : Option (Option String)) ≠ some (some "p1") := by
  decide

/-- Claim C5 (amended): for any interleaving in which one or more responses
for the round's identifier are handled before the waiting stage resumes and
any number after, exactly one `HumanInteraction` record is produced; the
record and the returned payload come from the last response handled before
resumption (last-write-wins, not first-accepted), and every response handled
after resumption is discarded with no effect. -/
theorem hitl_round_single_record_last_response : ∀ (rt pr p : String) (ps ts : List String),
    runRound rt pr initHState
        (((p :: ps).map HEvent.response) ++ [HEvent.wake] ++ (ts.map HEvent.response)) =
      { pending := false, stored := none, eventSet := true
        interactions := [{ type := rt, prompt := pr, response := ps.getLastD p, status := "provided" }]
        returned := some (some (ps.getLastD p)) } := by
  intro rt pr p ps ts
  unfold runRound
  rw [List.foldl_append, List.foldl_append]
  have h1 := runRound_responses_pending rt pr ps p initHState rfl
  unfold runRound at h1
  rw [h1]
  have h2 : (List.foldl (hitlStep rt pr)
      ({ initHState with stored := some (ps.getLastD p), eventSet := true }) [HEvent.wake]) =
      { pending := false, stored := none, eventSet := true
        interactions := [{ type := rt, prompt := pr, response := ps.getLastD p, status := "provided" }]
        returned := some (some (ps.getLastD p)) } := by
    simp [hitlStep, initHState]
  rw [h2]
  have h3 := runRound_responses_noop rt pr ts
    ({ pending := false, stored := none, eventSet := true
       interactions := [{ type := rt, prompt := pr, response := ps.getLastD p, status := "provided" }]
       returned := some (some (ps.getLastD p)) }) rfl
  unfold runRound at h3
  rw [h3]

/-- Claim C8: whatever the four gathered collection outcomes are — results,
faults, or timeouts — stage 2 writes exactly one entry per collection agent
into the context, keyed by the agent's name, and persists exactly one output
per agent in fixed order (followed by the two dependent stages' outputs);
the per-element conversion of `asyncio.gather(..., return_exceptions=True)`
means no outcome can remove or block a sibling's entry. -/
theorem stage2_records_all_collection_agents : ∀ inp : WfInputs,
    ((runWorkflowModel inp).savedOutputs.map Prod.fst =
      ["policy_retriever", "evidence_collector", "vision_ocr", "code_scanner",
       "risk_scorer", "red_team_critic"])
    ∧ (runWorkflowModel inp).context.policy_retriever =
        some (resolveGather "policy_retriever" inp.policyOutcome)
    ∧ (runWorkflowModel inp).context.evidence_collector =
        some (resolveGather "evidence_collector" inp.evidenceOutcome)
    ∧ (runWorkflowModel inp).context.vision_ocr =
        some (resolveGather "vision_ocr" inp.visionOutcome)
    ∧ (runWorkflowModel inp).context.code_scanner =
        some (resolveGather "code_scanner" inp.codeOutcome) :=
  fun _ => ⟨rfl, rfl, rfl, rfl, rfl⟩

/-- Claim C9: a HITL round whose 60-unit wait expires records a
`HumanInteraction` with status `timeout` and empty response text and returns
no payload (first conjunct, on the round protocol); and a workflow whose
first round times out is not aborted — its trace still reports Finalization
completed and persists the synthesized final result. -/
theorem hitl_timeout_nonfatal : ∀ (rt pr : String) (inp : WfInputs) (q : String) (qs : List String),
    inp.critic.needs_hitl.getD false = true →
    inp.critic.follow_up_questions = q :: qs →
    inp.operatorBehavior.headD none = none →
    runRound rt pr initHState [HEvent.expire] =
      { pending := false, stored := none, eventSet := false
        interactions := [{ type := rt, prompt := pr, response := "", status := "timeout" }]
        returned := some none }
    ∧ (runWorkflowModel inp).roundRecords.head? =
        some { type := "clarification", prompt := q, response := "", status := "timeout" }
    ∧ ("finalized", "completed") ∈ (runWorkflowModel inp).stages
    ∧ (runWorkflowModel inp).savedFinal = some (generateFinalResult (wfContext inp)) := by
  intro rt pr inp q qs h1 h2 h3
  refine ⟨by simp [runRound, hitlStep, initHState], ?_, ?_, rfl⟩
  · simp only [runWorkflowModel, wfQuestions, h1, if_true, h2]
    cases hop : inp.operatorBehavior with
    | nil => simp [doRounds]
    | cons o os =>
        rw [hop] at h3
        simp only [List.headD_cons] at h3
        subst h3
        simp [doRounds]
  · simp [runWorkflowModel, h1]

/-- Witness for claim C9 at a concrete run: the critic asks one question,
the operator never answers. -/
theorem hitl_timeout_nonfatal_witness :
    (({ critic := { needs_hitl := some true, follow_up_questions := ["Q1"] } } :
        WfInputs).critic.needs_hitl.getD false = true)
    ∧ (({ critic := { needs_hitl := some true, follow_up_questions := ["Q1"] } } :
        WfInputs).critic.follow_up_questions = ["Q1"])
    ∧ (({ critic := { needs_hitl := some true, follow_up_questions := ["Q1"] } } :
        WfInputs).operatorBehavior.headD none = none)
    ∧ ((runWorkflowModel
          { critic := { needs_hitl := some true, follow_up_questions := ["Q1"] } }).roundRecords.head? =
        some { type := "clarification", prompt := "Q1", response := "", status := "timeout" }
      ∧ ("finalized", "completed") ∈ (runWorkflowModel
          { critic := { needs_hitl := some true, follow_up_questions := ["Q1"] } }).stages
      ∧ (runWorkflowModel
          { critic := { needs_hitl := some true, follow_up_questions := ["Q1"] } }).savedFinal =
        some (generateFinalResult (wfContext
          { critic := { needs_hitl := some true, follow_up_questions := ["Q1"] } }))) :=
  ⟨rfl, rfl, rfl,
    (hitl_timeout_nonfatal "clarification" "p"
      { critic := { needs_hitl := some true, follow_up_questions := ["Q1"] } }
      "Q1" [] rfl rfl rfl).2⟩

/-- Claim C7 (code bug): a query matching the two-group unsafe pattern
`bypass ... security` makes `validate_query_safety` raise (`", ".join` over
the tuple list `re.findall` returns for a multi-group pattern), so `/ask`
propagates an exception instead of returning the canonical refusal; a query
matching a single-group pattern such as `hack` is refused as claimed. -/
theorem ask_question_crashes_on_pattern2 :
    validateQuerySafety "bypass security" = none
    ∧ askQuestion "bypass security" = none
    ∧ (askQuestion "hack the system").map AskResponse.status = some "refused" := by
  decide
